import Mathlib

/-!
Shallow embedding of the silver_gl wrapper layer (src/framebuffer.rs,
src/model.rs, src/uniform_buffer.rs).  Native graphics calls are modelled as
an emitted trace of `GlCall` events; wrapper objects become Lean structures;
native name allocation (CreateFramebuffers, CreateBuffers, texture creation)
is modelled by threading a fresh-id counter.  Fallible operations return
`Except GlError _` next to their trace.
-/

/-- Native API enum values used by the source (numeric values of the
corresponding GL constants). -/
def GL_COLOR_ATTACHMENT0 : Nat := 36064

def GL_TEXTURE0 : Nat := 33984

def GL_DRAW_INDIRECT_BUFFER : Nat := 36671

def GL_UNIFORM_BUFFER : Nat := 35345

def GL_FRAMEBUFFER : Nat := 36160

def GL_DEPTH_STENCIL_ATTACHMENT : Nat := 33306

def GL_RENDERBUFFER : Nat := 36161

/-- Error type of the wrapper.  `framebufferNotComplete` (carrying the native
handle) is `GlError::FramebufferNotComplete(id)` from the source; the other
variants are modelled from the spec's error taxonomy: texture-resize failure
(propagated by `set_size`), mesh texture-binding failure (propagated by the
model `draw` loops), and shader uniform-block binding failure (propagated by
`UniformBuffer::new`). -/
inductive GlError where
  | framebufferNotComplete (id : Nat)
  | textureResizeFailed
  | meshTextureBindFailed
  | shaderBindingFailed (name : String)
  deriving DecidableEq, Repr

/-- One native graphics call, as emitted by the wrapper.  Each constructor
mirrors one `gl::...` call (or one call into an external collaborator) made by
the source. -/
inductive GlCall where
  | createFramebuffers (id : Nat)
  | namedFramebufferTexture (fb attachment tex level : Nat)
  | namedFramebufferDrawBuffers (fb : Nat) (count : Int) (bufs : List Nat)
  | namedFramebufferRenderbuffer (fb attachment target rb : Nat)
  | checkNamedFramebufferStatus (fb : Nat)
  | bindFramebuffer (target fb : Nat)
  | bindVertexArray (va : Nat)
  | bindBuffer (target buf : Nat)
  | activeTexture (unit : Nat)
  | setTextures (texIds : List Nat)
  | drawElementsOffset (count : Int) (offset : Nat) (instances : Int)
  | createBuffers (id : Nat)
  | namedBufferData (id : Nat) (size : Int)
  | bindBufferRange (target index id : Nat) (offset size : Int)
  | bindToUbo (programId : Nat) (name : String)
  deriving DecidableEq, Repr

/-- Modelled from the spec: `Texture` is an external collaborator providing
`new`, `resize`, `get_id`; the framebuffer treats it as an opaque
shared resource sized width x height.  Whether a native resize of this
texture would succeed is abstracted into the `resize_ok` field, since the
spec's taxonomy says a texture resize may fail and the failure is
propagated. -/
structure Texture where
  id : Nat
  width : Int
  height : Int
  resize_ok : Bool
  deriving DecidableEq, Repr

def Texture.get_id (t : Texture) : Nat := t.id

/-- Source `Texture::new_mut(width, height)`; the native texture name comes from the
fresh-id counter. -/
def Texture.new_mut (width height : Int) (freshId : Nat) : Texture :=
  { id := freshId, width := width, height := height, resize_ok := true }

/-- Source `Texture::resize(width, height)`, fallible as in the source
(`texture.resize(width, height)?`). -/
def Texture.resize (t : Texture) (width height : Int) : Except GlError Texture :=
  if t.resize_ok then
    Except.ok { t with width := width, height := height }
  else
    Except.error GlError.textureResizeFailed

/-- Modelled from the spec: `RenderBuffer` is an external collaborator
providing `new`, `resize`, `get_id`; its `resize` is infallible in the
source (`rbo.resize(width, height);` with no `?`). -/
structure RenderBuffer where
  id : Nat
  width : Int
  height : Int
  deriving DecidableEq, Repr

def RenderBuffer.new (width height : Int) (freshId : Nat) : RenderBuffer :=
  { id := freshId, width := width, height := height }

def RenderBuffer.get_id (r : RenderBuffer) : Nat := r.id

def RenderBuffer.resize (r : RenderBuffer) (width height : Int) : RenderBuffer :=
  { r with width := width, height := height }

/-- Modelled from the spec: `Matrix4<f32>` instance transform, an opaque
plain-data value (its float entries play no role in any wrapper operation). -/
inductive Mat4 where
  | mk
  deriving DecidableEq, Repr

/-- Modelled from the spec: `Vertex` is a plain data record
(position/normal/uv/tangent/bitangent), consumed verbatim; opaque here. -/
inductive Vertex where
  | mk
  deriving DecidableEq, Repr

/-- Modelled from the spec: `DrawCommand` is a GPU-resident indirect draw
descriptor; the command buffer is never populated in the current design, so
the value is opaque. -/
inductive DrawCommand where
  | mk
  deriving DecidableEq, Repr

/-- Modelled from the spec: `ShaderProgram` is an external collaborator; for
uniform-block resolution all that matters is which block names the program
declares. -/
structure ShaderProgram where
  id : Nat
  uniform_blocks : List String
  deriving DecidableEq, Repr

/-- Modelled from the spec: `ShaderProgram::bind_to_ubo(name)` resolves the
named uniform block, failing with a shader-binding error when the program
does not declare the block. -/
def ShaderProgram.bind_to_ubo (sp : ShaderProgram) (name : String) :
    Except GlError Unit × List GlCall :=
  if name ∈ sp.uniform_blocks then
    (Except.ok (), [GlCall.bindToUbo sp.id name])
  else
    (Except.error (GlError.shaderBindingFailed name), [])

/-- Modelled from the spec: `Mesh` is a plain data record carrying an index
count, an index offset and the per-mesh shared diffuse textures.
`Mesh::set_textures` binds those textures against the shader program's
texture units and is fallible in the source (`mesh.set_textures(..)?`);
whether it succeeds is abstracted into the `set_textures_ok` field. -/
structure Mesh where
  count : Int
  offset : Nat
  diffuse_textures : List Texture
  set_textures_ok : Bool
  deriving DecidableEq, Repr

def Mesh.get_count (m : Mesh) : Int := m.count

def Mesh.get_offset (m : Mesh) : Nat := m.offset

def Mesh.set_textures (m : Mesh) (_sp : ShaderProgram) :
    Except GlError Unit × List GlCall :=
  if m.set_textures_ok then
    (Except.ok (), [GlCall.setTextures (m.diffuse_textures.map Texture.get_id)])
  else
    (Except.error GlError.meshTextureBindFailed, [])

/-- Modelled from the spec: `Buffer<T>` is the GPU-resident storage
primitive; `len` is its element count. -/
structure Buffer (α : Type) where
  id : Nat
  data : List α
  deriving DecidableEq, Repr

def Buffer.len {α : Type} (b : Buffer α) : Nat := b.data.length

def Buffer.get_id {α : Type} (b : Buffer α) : Nat := b.id

/-- Modelled from the spec: `VertexArray` provides attribute registration and
element-offset draw issuance; only its native handle matters here. -/
structure VertexArray where
  id : Nat
  deriving DecidableEq, Repr

def VertexArray.bind (va : VertexArray) : List GlCall :=
  [GlCall.bindVertexArray va.id]

/-- Source `VertexArray::draw_elements_offset(count, offset, instances)`: one
instanced indexed draw call. -/
def VertexArray.draw_elements_offset (_va : VertexArray)
    (count : Int) (offset : Nat) (instances : Int) : List GlCall :=
  [GlCall.drawElementsOffset count offset instances]

/-- Direct-draw model variant (`MultiBindModel` in src/model.rs). -/
structure MultiBindModel where
  meshes : List Mesh
  vertex_array : VertexArray
  vertex_buffer : Buffer Vertex
  element_buffer : Buffer Nat
  transform_buffer : Buffer Mat4
  deriving DecidableEq, Repr

/-- The per-mesh loop of `MultiBindModel::draw`: for each mesh, bind its
textures (propagating failure with an early return, as the source's `?`
does), issue one instanced indexed draw call with the mesh's count/offset and
the transform buffer's element count, then reset the active texture unit. -/
def MultiBindModel.drawMeshLoop (meshes : List Mesh) (sp : ShaderProgram)
    (instances : Int) : Except GlError Unit × List GlCall :=
  match meshes with
  | [] => (Except.ok (), [])
  | m :: rest =>
    match m.set_textures sp with
    | (Except.error e, tr) => (Except.error e, tr)
    | (Except.ok (), tr) =>
      let step := tr ++ [GlCall.drawElementsOffset m.get_count m.get_offset instances,
                         GlCall.activeTexture GL_TEXTURE0]
      let rec2 := MultiBindModel.drawMeshLoop rest sp instances
      (rec2.1, step ++ rec2.2)

/-- Source `MultiBindModel::draw` (src/model.rs lines 74-94): bind the vertex array,
run the per-mesh loop, and unbind the vertex array on success (the source's
`?` skips the final `gl::BindVertexArray(0)` on error). -/
def MultiBindModel.draw (self : MultiBindModel) (sp : ShaderProgram) :
    Except GlError Unit × List GlCall :=
  match MultiBindModel.drawMeshLoop self.meshes sp (Int.ofNat self.transform_buffer.len) with
  | (Except.ok (), tr) =>
    (Except.ok (), GlCall.bindVertexArray self.vertex_array.id :: (tr ++ [GlCall.bindVertexArray 0]))
  | (Except.error e, tr) =>
    (Except.error e, GlCall.bindVertexArray self.vertex_array.id :: tr)

/-- Indirect-draw model variant (`BindlessModel` in src/model.rs); it
additionally owns the indirect-draw-command buffer. -/
structure BindlessModel where
  meshes : List Mesh
  vertex_array : VertexArray
  vertex_buffer : Buffer Vertex
  element_buffer : Buffer Nat
  transform_buffer : Buffer Mat4
  command_buffer : Buffer DrawCommand
  deriving DecidableEq, Repr

/-- The per-mesh loop of `BindlessModel::draw`, duplicated from the direct
variant exactly as the source duplicates it. -/
def BindlessModel.drawMeshLoop (meshes : List Mesh) (sp : ShaderProgram)
    (instances : Int) : Except GlError Unit × List GlCall :=
  match meshes with
  | [] => (Except.ok (), [])
  | m :: rest =>
    match m.set_textures sp with
    | (Except.error e, tr) => (Except.error e, tr)
    | (Except.ok (), tr) =>
      let step := tr ++ [GlCall.drawElementsOffset m.get_count m.get_offset instances,
                         GlCall.activeTexture GL_TEXTURE0]
      let rec2 := BindlessModel.drawMeshLoop rest sp instances
      (rec2.1, step ++ rec2.2)

/-- Source `BindlessModel::draw` (src/model.rs lines 168-190): bind the vertex
array, additionally bind the indirect-draw-command buffer, then run the same
per-mesh loop as the direct variant. -/
def BindlessModel.draw (self : BindlessModel) (sp : ShaderProgram) :
    Except GlError Unit × List GlCall :=
  let pre := [GlCall.bindVertexArray self.vertex_array.id,
              GlCall.bindBuffer GL_DRAW_INDIRECT_BUFFER self.command_buffer.get_id]
  match BindlessModel.drawMeshLoop self.meshes sp (Int.ofNat self.transform_buffer.len) with
  | (Except.ok (), tr) => (Except.ok (), pre ++ tr ++ [GlCall.bindVertexArray 0])
  | (Except.error e, tr) => (Except.error e, pre ++ tr)

/-- Modelled from the spec: `create_quad` (src/model_utils.rs, not under
src/) builds a one-mesh fullscreen quad model with the given instance
transforms and an initially empty input-texture list; the quad's own GPU
handles and vertex data are not tracked by any claim. -/
def create_quad (model_transforms : List Mat4) : MultiBindModel :=
  { meshes := [{ count := 6, offset := 0, diffuse_textures := [], set_textures_ok := true }],
    vertex_array := { id := 0 },
    vertex_buffer := { id := 0, data := [] },
    element_buffer := { id := 0, data := [] },
    transform_buffer := { id := 0, data := model_transforms } }

/-- Source `Framebuffer` (src/framebuffer.rs lines 7-15). -/
structure Framebuffer where
  id : Nat
  textures : List Texture
  draw_buffers : List Nat
  quad : MultiBindModel
  width : Int
  height : Int
  render_buffer : Option RenderBuffer
  deriving DecidableEq, Repr

/-- Source `Framebuffer::new_default(width, height)`: zero handle, empty attachment
and draw-buffer lists, a fresh one-mesh quad with a single identity
transform, no render buffer. -/
def Framebuffer.new_default (width height : Int) : Framebuffer :=
  { id := 0,
    textures := [],
    draw_buffers := [],
    quad := create_quad [Mat4.mk],
    width := width,
    height := height,
    render_buffer := none }

/-- The `for i in 0..n` loop of `Framebuffer::gen_textures`: creates `n`
fresh textures sized by the framebuffer, attaches the one created in
iteration `i` at `COLOR_ATTACHMENT0 + i`, and records the attachment slots.
Returns the created textures, the recorded slots, the trace and the next
fresh id. -/
def genTexturesLoop (fbId : Nat) (width height : Int) (i : Nat) :
    Nat → Nat → List Texture × List Nat × List GlCall × Nat
  | 0, freshId => ([], [], [], freshId)
  | Nat.succ k, freshId =>
    let texture := Texture.new_mut width height freshId
    let attachment := GL_COLOR_ATTACHMENT0 + i
    let rest := genTexturesLoop fbId width height (i + 1) k (freshId + 1)
    (texture :: rest.1,
     attachment :: rest.2.1,
     GlCall.namedFramebufferTexture fbId attachment texture.get_id 0 :: rest.2.2.1,
     rest.2.2.2)

/-- Source `Framebuffer::gen_textures(n)` (src/framebuffer.rs lines 54-78): run the
attachment loop (pushing onto the existing texture and draw-buffer lists),
then register the whole draw-buffer list. -/
def Framebuffer.gen_textures (self : Framebuffer) (n : Nat) (freshId : Nat) :
    Framebuffer × List GlCall × Nat :=
  let r := genTexturesLoop self.id self.width self.height 0 n freshId
  let self2 := { self with textures := self.textures ++ r.1,
                           draw_buffers := self.draw_buffers ++ r.2.1 }
  (self2,
   r.2.2.1 ++ [GlCall.namedFramebufferDrawBuffers self2.id
                 (Int.ofNat self2.draw_buffers.length) self2.draw_buffers],
   r.2.2.2)

/-- Source `Framebuffer::gen_render_buffer` (src/framebuffer.rs lines 80-93). -/
def Framebuffer.gen_render_buffer (self : Framebuffer) (freshId : Nat) :
    Framebuffer × List GlCall × Nat :=
  let render_buffer := RenderBuffer.new self.width self.height freshId
  ({ self with render_buffer := some render_buffer },
   [GlCall.namedFramebufferRenderbuffer self.id GL_DEPTH_STENCIL_ATTACHMENT
      GL_RENDERBUFFER render_buffer.get_id],
   freshId + 1)

/-- Source `Framebuffer::check_status` (src/framebuffer.rs lines 95-103): queries
native completeness (outcome abstracted as the `complete` flag of the
environment) and returns the framebuffer-incomplete error carrying the
handle when the check fails. -/
def Framebuffer.check_status (self : Framebuffer) (complete : Bool) :
    Except GlError Unit × List GlCall :=
  (if complete then Except.ok () else Except.error (GlError.framebufferNotComplete self.id),
   [GlCall.checkNamedFramebufferStatus self.id])

/-- Source `Framebuffer::new(width, height, tex_num, has_rb)` (src/framebuffer.rs
lines 18-36): default state, native handle creation, texture generation,
optional render buffer, completeness check last. -/
def Framebuffer.new (width height : Int) (tex_num : Nat) (has_rb : Bool)
    (freshId : Nat) (complete : Bool) :
    Except GlError Framebuffer × List GlCall × Nat :=
  let fb0 := Framebuffer.new_default width height
  let fbId := freshId
  let fb1 := { fb0 with id := fbId }
  let g := fb1.gen_textures tex_num (freshId + 1)
  let r := if has_rb then g.1.gen_render_buffer g.2.2 else (g.1, [], g.2.2)
  let c := r.1.check_status complete
  let trace := GlCall.createFramebuffers fbId :: (g.2.1 ++ r.2.1 ++ c.2)
  match c.1 with
  | Except.ok () => (Except.ok r.1, trace, r.2.2)
  | Except.error e => (Except.error e, trace, r.2.2)

/-- Source `Framebuffer::get_link` (src/framebuffer.rs lines 105-113): a fresh list
holding a shared reference to every color attachment, in order. -/
def Framebuffer.get_link (self : Framebuffer) : List Texture :=
  self.textures

/-- Source `Framebuffer::link_push` (src/framebuffer.rs lines 128-130): pushes one
texture onto the quad's first mesh's input-texture list.  In the source the
`meshes[0]` indexing panics on an empty mesh list; that state is unreachable
because the quad always holds exactly one mesh, and the empty case is mapped
to a no-op here (theorems about linking assume a nonempty mesh list). -/
def Framebuffer.link_push (self : Framebuffer) (texture : Texture) : Framebuffer :=
  { self with quad :=
      { self.quad with meshes :=
          match self.quad.meshes with
          | [] => []
          | m :: rest =>
            { m with diffuse_textures := m.diffuse_textures ++ [texture] } :: rest } }

/-- Source `Framebuffer::link_to` (src/framebuffer.rs lines 115-119): pushes each
given output texture in order. -/
def Framebuffer.link_to (self : Framebuffer) (output : List Texture) : Framebuffer :=
  output.foldl Framebuffer.link_push self

/-- Source `Framebuffer::link_to_fb` (src/framebuffer.rs lines 124-126). -/
def Framebuffer.link_to_fb (self : Framebuffer) (framebuffer : Framebuffer) : Framebuffer :=
  self.link_to framebuffer.get_link

/-- Source `Framebuffer::unlink` (src/framebuffer.rs lines 132-134). -/
def Framebuffer.unlink (self : Framebuffer) : Framebuffer :=
  { self with quad :=
      { self.quad with meshes :=
          match self.quad.meshes with
          | [] => []
          | m :: rest => { m with diffuse_textures := [] } :: rest } }

/-- Source `Framebuffer::get` (src/framebuffer.rs lines 137-143): the color
attachment at `index`, or `none` when out of range. -/
def Framebuffer.get (self : Framebuffer) (index : Nat) : Option Texture :=
  match self.textures.get? index with
  | some texture => some texture
  | none => none

/-- Source `Framebuffer::len` (src/framebuffer.rs lines 145-147). -/
def Framebuffer.len (self : Framebuffer) : Nat :=
  self.textures.length

/-- Source `Framebuffer::get_size` (src/framebuffer.rs lines 170-172). -/
def Framebuffer.get_size (self : Framebuffer) : Int × Int :=
  (self.width, self.height)

/-- The `for texture in self.textures` loop of `Framebuffer::set_size`:
resize each texture in order, stopping at (and propagating) the first
failure; textures after the failure keep their old size. -/
def resizeAll (ts : List Texture) (width height : Int) :
    List Texture × Option GlError :=
  match ts with
  | [] => ([], none)
  | t :: rest =>
    match t.resize width height with
    | Except.ok t2 =>
      let r := resizeAll rest width height
      (t2 :: r.1, r.2)
    | Except.error e => (t :: rest, some e)

/-- Source `Framebuffer::set_size` (src/framebuffer.rs lines 174-189): the stored
dimensions are updated first, then every color attachment is resized (the
source's `?` aborts at the first failure), and the render buffer is resized
only when all texture resizes succeeded. -/
def Framebuffer.set_size (self : Framebuffer) (width height : Int) :
    Framebuffer × Except GlError Unit :=
  let self1 := { self with width := width, height := height }
  let r := resizeAll self1.textures width height
  match r.2 with
  | none =>
    ({ self1 with textures := r.1,
                  render_buffer := self1.render_buffer.map (fun rbo => rbo.resize width height) },
     Except.ok ())
  | some e => ({ self1 with textures := r.1 }, Except.error e)

/-- Source `Framebuffer::get_id` (src/framebuffer.rs lines 191-193). -/
def Framebuffer.get_id (self : Framebuffer) : Nat :=
  self.id

/-- Source `UniformBuffer` (src/uniform_buffer.rs lines 5-9). -/
structure UniformBuffer where
  id : Nat
  name : String
  buffer_size : Int
  deriving DecidableEq, Repr

/-- Source `UniformBuffer::register_shader_program` (src/uniform_buffer.rs lines
28-30). -/
def UniformBuffer.register_shader_program (self : UniformBuffer)
    (shader_program : ShaderProgram) : Except GlError Unit × List GlCall :=
  shader_program.bind_to_ubo self.name

/-- The `for shader_program in shader_programs` loop of
`UniformBuffer::new`: register each program, propagating the first failure
(the source's `?`). -/
def registerAll (self : UniformBuffer) (programs : List ShaderProgram) :
    Except GlError Unit × List GlCall :=
  match programs with
  | [] => (Except.ok (), [])
  | p :: rest =>
    match self.register_shader_program p with
    | (Except.error e, tr) => (Except.error e, tr)
    | (Except.ok (), tr) =>
      let r := registerAll self rest
      (r.1, tr ++ r.2)

/-- Source `UniformBuffer::create_ubo` (src/uniform_buffer.rs lines 32-38):
allocates the native buffer name, allocates storage of `buffer_size` bytes,
and binds the buffer to uniform binding point 0. -/
def UniformBuffer.create_ubo (self : UniformBuffer) (freshId : Nat) :
    UniformBuffer × List GlCall × Nat :=
  let self2 := { self with id := freshId }
  (self2,
   [GlCall.createBuffers freshId,
    GlCall.namedBufferData freshId self.buffer_size,
    GlCall.bindBufferRange GL_UNIFORM_BUFFER 0 freshId 0 self.buffer_size],
   freshId + 1)

/-- Source `UniformBuffer::new(shader_programs, name, buffer_size)`
(src/uniform_buffer.rs lines 12-26): resolve the block in every program
first (aborting on the first failure, before any buffer allocation), then
create the buffer. -/
def UniformBuffer.new (shader_programs : List ShaderProgram) (name : String)
    (buffer_size : Int) (freshId : Nat) :
    Except GlError UniformBuffer × List GlCall × Nat :=
  match registerAll { id := 0, name := name, buffer_size := buffer_size } shader_programs with
  | (Except.error e, tr) => (Except.error e, tr, freshId)
  | (Except.ok (), tr) =>
    let c := UniformBuffer.create_ubo { id := 0, name := name, buffer_size := buffer_size } freshId
    (Except.ok c.1, tr ++ c.2.1, c.2.2)

/-- A state-changing public operation on a `Framebuffer`, used to
characterise the reachable states. -/
inductive FbOp where
  | gen_textures (n : Nat)
  | gen_render_buffer
  | set_size (width height : Int)
  | link_push (t : Texture)
  | link_to (ts : List Texture)
  | unlink
  deriving DecidableEq, Repr

/-- Apply one operation to a framebuffer state (traces and results
discarded; the fresh-id counter threaded through). -/
def applyFbOp (s : Framebuffer × Nat) (op : FbOp) : Framebuffer × Nat :=
  match op with
  | FbOp.gen_textures n =>
    let r := s.1.gen_textures n s.2
    (r.1, r.2.2)
  | FbOp.gen_render_buffer =>
    let r := s.1.gen_render_buffer s.2
    (r.1, r.2.2)
  | FbOp.set_size w h => ((s.1.set_size w h).1, s.2)
  | FbOp.link_push t => (s.1.link_push t, s.2)
  | FbOp.link_to ts => (s.1.link_to ts, s.2)
  | FbOp.unlink => (s.1.unlink, s.2)

/-- Apply a sequence of operations in order. -/
def applyFbOps (s : Framebuffer × Nat) (ops : List FbOp) : Framebuffer × Nat :=
  ops.foldl applyFbOp s

/-- Whether an operation is a `gen_textures` call. -/
def FbOp.isGenTextures : FbOp → Bool
  | FbOp.gen_textures _ => true
  | _ => false

/-- Closed form of the attachment loop: iteration `k` creates the texture
with fresh id `freshId + k` and attaches it at slot `GL_COLOR_ATTACHMENT0 +
i + k`. -/
theorem genTexturesLoop_eq (fbId : Nat) (w h : Int) (i n freshId : Nat) :
    genTexturesLoop fbId w h i n freshId =
      ((List.range n).map (fun k => Texture.new_mut w h (freshId + k)),
       (List.range n).map (fun k => GL_COLOR_ATTACHMENT0 + i + k),
       (List.range n).map (fun k =>
         GlCall.namedFramebufferTexture fbId (GL_COLOR_ATTACHMENT0 + i + k) (freshId + k) 0),
       freshId + n) := by
  induction n generalizing i freshId with
  | zero => simp [genTexturesLoop]
  | succ k ih =>
    have e1 : ∀ {α : Type} (f : Nat → α) (g : Nat → α), (∀ j, f (j + 1) = g j) →
        (List.range (k+1)).map f = f 0 :: (List.range k).map g := by
      intro α f g hfg
      rw [List.range_succ_eq_map, List.map_cons, List.map_map]
      refine congrArg _ (List.map_congr_left ?_)
      intro a _
      exact hfg a
    simp only [genTexturesLoop, ih]
    refine congrArg₂ _ ?_ (congrArg₂ _ ?_ (congrArg₂ _ ?_ ?_))
    · rw [e1 (fun j => Texture.new_mut w h (freshId + j)) (fun j => Texture.new_mut w h (freshId + 1 + j))]
      · simp
      · intro j; simp [Nat.add_assoc, Nat.add_comm 1 j]
    · rw [e1 (fun j => GL_COLOR_ATTACHMENT0 + i + j) (fun j => GL_COLOR_ATTACHMENT0 + (i+1) + j)]
      · simp
      · intro j; omega
    · rw [e1 (fun j => GlCall.namedFramebufferTexture fbId (GL_COLOR_ATTACHMENT0 + i + j) (freshId + j) 0)
            (fun j => GlCall.namedFramebufferTexture fbId (GL_COLOR_ATTACHMENT0 + (i+1) + j) (freshId + 1 + j) 0)]
      · simp [Texture.new_mut, Texture.get_id]
      · intro j
        have h1 : GL_COLOR_ATTACHMENT0 + i + (j + 1) = GL_COLOR_ATTACHMENT0 + (i + 1) + j := by omega
        have h2 : freshId + (j + 1) = freshId + 1 + j := by omega
        rw [h1, h2]
    · omega

/-- The framebuffer state produced by `Framebuffer::new` on success. -/
def newExpectedFb (w h : Int) (n : Nat) (has_rb : Bool) (freshId : Nat) : Framebuffer :=
  { id := freshId,
    textures := (List.range n).map (fun k => Texture.new_mut w h (freshId + 1 + k)),
    draw_buffers := (List.range n).map (fun k => GL_COLOR_ATTACHMENT0 + k),
    quad := create_quad [Mat4.mk],
    width := w,
    height := h,
    render_buffer := if has_rb then some (RenderBuffer.new w h (freshId + 1 + n)) else none }

/-- The native-call trace emitted by `Framebuffer::new`. -/
def newExpectedTrace (n : Nat) (has_rb : Bool) (freshId : Nat) : List GlCall :=
  GlCall.createFramebuffers freshId ::
    ((List.range n).map (fun k =>
        GlCall.namedFramebufferTexture freshId (GL_COLOR_ATTACHMENT0 + k) (freshId + 1 + k) 0)
      ++ [GlCall.namedFramebufferDrawBuffers freshId (Int.ofNat n)
            ((List.range n).map (fun k => GL_COLOR_ATTACHMENT0 + k))]
      ++ (if has_rb then
            [GlCall.namedFramebufferRenderbuffer freshId GL_DEPTH_STENCIL_ATTACHMENT
               GL_RENDERBUFFER (freshId + 1 + n)]
          else [])
      ++ [GlCall.checkNamedFramebufferStatus freshId])

/-- Full characterisation of `Framebuffer::new`: resulting state, emitted
trace, fresh-id consumption, and the completeness-dependent outcome. -/
theorem Framebuffer.new_eq (w h : Int) (n : Nat) (has_rb : Bool) (freshId : Nat) (complete : Bool) :
    Framebuffer.new w h n has_rb freshId complete =
      ((if complete then Except.ok (newExpectedFb w h n has_rb freshId)
        else Except.error (GlError.framebufferNotComplete freshId)),
       newExpectedTrace n has_rb freshId,
       if has_rb then freshId + 1 + n + 1 else freshId + 1 + n) := by
  cases has_rb <;> cases complete <;>
    simp [Framebuffer.new, Framebuffer.new_default, Framebuffer.gen_textures,
      Framebuffer.gen_render_buffer, Framebuffer.check_status, genTexturesLoop_eq,
      newExpectedFb, newExpectedTrace, RenderBuffer.new, RenderBuffer.get_id,
      Texture.get_id, Texture.new_mut, Nat.add_zero]

/-- C1: constructing a `Framebuffer` with `n` color attachments and then
calling `get_link` yields exactly `n` texture entries, and for each `k < n`
the k-th entry is the texture that was attached at color-attachment slot
`GL_COLOR_ATTACHMENT0 + k` (slot order 0..n-1), as witnessed by the
`NamedFramebufferTexture` call in the construction trace. -/
theorem framebuffer_new_get_link_slot_order (w h : Int) (n : Nat) (has_rb : Bool)
    (freshId : Nat) (complete : Bool) (fb : Framebuffer) (tr : List GlCall) (nid : Nat)
    (hnew : Framebuffer.new w h n has_rb freshId complete = (Except.ok fb, tr, nid)) :
    fb.get_link.length = n ∧
    ∀ k, k < n → ∃ t : Texture,
      fb.get_link.get? k = some t ∧
      GlCall.namedFramebufferTexture fb.get_id (GL_COLOR_ATTACHMENT0 + k) t.get_id 0 ∈ tr := by
  rw [Framebuffer.new_eq] at hnew
  cases complete with
  | false => simp at hnew
  | true =>
    simp only [if_true, Prod.mk.injEq, Except.ok.injEq] at hnew
    obtain ⟨hfb, htr, -⟩ := hnew
    subst hfb htr
    constructor
    · simp [Framebuffer.get_link, newExpectedFb]
    · intro k hk
      refine ⟨Texture.new_mut w h (freshId + 1 + k), ?_, ?_⟩
      · simp [Framebuffer.get_link, newExpectedFb]
        exact ⟨k, by rw [List.getElem?_range hk], rfl⟩
      · simp only [newExpectedTrace, Framebuffer.get_id, newExpectedFb, Texture.get_id,
          Texture.new_mut, List.mem_cons, List.mem_append, List.mem_map, List.mem_range]
        exact Or.inr (Or.inl (Or.inl (Or.inl ⟨k, hk, rfl⟩)))

/-- Witness for C1 at `Framebuffer::new 4 3 2 true 10 true`. -/
theorem framebuffer_new_get_link_slot_order_witness :
    (newExpectedFb 4 3 2 true 10).get_link.length = 2 :=
  (framebuffer_new_get_link_slot_order 4 3 2 true 10 true (newExpectedFb 4 3 2 true 10)
    (newExpectedTrace 2 true 10) 14 (by rfl)).1

/-- C3: `Framebuffer::new` returns the framebuffer-incomplete error carrying
the framebuffer's native handle exactly when the native completeness check
fails, and the completeness check is the last native call of the
construction trace — it is issued exactly once, after every attachment call
(never before or between attachment steps). -/
theorem framebuffer_new_check_status_last (w h : Int) (n : Nat) (has_rb : Bool)
    (freshId : Nat) (complete : Bool) :
    ((Framebuffer.new w h n has_rb freshId complete).1 =
        Except.error (GlError.framebufferNotComplete freshId) ↔ complete = false) ∧
    ((∃ e, (Framebuffer.new w h n has_rb freshId complete).1 = Except.error e) ↔
        complete = false) ∧
    ∃ pre : List GlCall,
      (Framebuffer.new w h n has_rb freshId complete).2.1 =
        pre ++ [GlCall.checkNamedFramebufferStatus freshId] ∧
      ∀ fbid : Nat, GlCall.checkNamedFramebufferStatus fbid ∉ pre := by
  rw [Framebuffer.new_eq]
  refine ⟨?_, ?_, ?_⟩
  · cases complete <;> simp
  · cases complete <;> simp
  · refine ⟨GlCall.createFramebuffers freshId ::
      ((List.range n).map (fun k =>
          GlCall.namedFramebufferTexture freshId (GL_COLOR_ATTACHMENT0 + k) (freshId + 1 + k) 0)
        ++ [GlCall.namedFramebufferDrawBuffers freshId (Int.ofNat n)
              ((List.range n).map (fun k => GL_COLOR_ATTACHMENT0 + k))]
        ++ (if has_rb then
              [GlCall.namedFramebufferRenderbuffer freshId GL_DEPTH_STENCIL_ATTACHMENT
                 GL_RENDERBUFFER (freshId + 1 + n)]
            else [])), ?_, ?_⟩
    · simp [newExpectedTrace]
    · intro fbid hmem
      simp only [List.mem_cons, List.mem_append, List.mem_map, List.mem_range] at hmem
      rcases hmem with h1 | ⟨⟨⟨k, -, h2⟩ | h3⟩ | h4⟩
      · exact GlCall.noConfusion h1
      · exact GlCall.noConfusion h2
      · simp at h3
      · cases has_rb <;> simp at h4

theorem resizeAll_length (ts : List Texture) (w h : Int) :
    (resizeAll ts w h).1.length = ts.length := by
  induction ts with
  | nil => rfl
  | cons t rest ih =>
    simp only [resizeAll]
    cases hr : t.resize w h <;> simp [ih]

theorem link_push_textures (fb : Framebuffer) (t : Texture) :
    (fb.link_push t).textures = fb.textures := rfl

theorem link_push_draw_buffers (fb : Framebuffer) (t : Texture) :
    (fb.link_push t).draw_buffers = fb.draw_buffers := rfl

theorem link_to_textures (fb : Framebuffer) (ts : List Texture) :
    (fb.link_to ts).textures = fb.textures ∧
    (fb.link_to ts).draw_buffers = fb.draw_buffers := by
  induction ts generalizing fb with
  | nil => exact ⟨rfl, rfl⟩
  | cons t rest ih =>
    have : fb.link_to (t :: rest) = (fb.link_push t).link_to rest := rfl
    rw [this]
    rcases ih (fb.link_push t) with ⟨h1, h2⟩
    exact ⟨h1.trans (link_push_textures fb t), h2.trans (link_push_draw_buffers fb t)⟩

theorem set_size_textures (fb : Framebuffer) (w h : Int) :
    ((fb.set_size w h).1).textures = (resizeAll fb.textures w h).1 ∧
    ((fb.set_size w h).1).draw_buffers = fb.draw_buffers := by
  cases hr : (resizeAll fb.textures w h).2 <;>
    simp [Framebuffer.set_size, hr]

/-- One step preserves equality of the draw-buffer and attachment list
lengths. -/
theorem applyFbOp_len_eq (s : Framebuffer × Nat) (op : FbOp)
    (hlen : s.1.draw_buffers.length = s.1.textures.length) :
    (applyFbOp s op).1.draw_buffers.length = (applyFbOp s op).1.textures.length := by
  cases op with
  | gen_textures n =>
    simp [applyFbOp, Framebuffer.gen_textures, genTexturesLoop_eq, hlen]
  | gen_render_buffer =>
    simpa [applyFbOp, Framebuffer.gen_render_buffer] using hlen
  | set_size w h =>
    have hs := set_size_textures s.1 w h
    simp [applyFbOp, hs.1, hs.2, resizeAll_length, hlen]
  | link_push t =>
    simpa [applyFbOp, link_push_textures, link_push_draw_buffers] using hlen
  | link_to ts =>
    have hl := link_to_textures s.1 ts
    simp [applyFbOp, hl.1, hl.2, hlen]
  | unlink =>
    simpa [applyFbOp, Framebuffer.unlink] using hlen

theorem applyFbOps_len_eq (ops : List FbOp) (s : Framebuffer × Nat)
    (hlen : s.1.draw_buffers.length = s.1.textures.length) :
    (applyFbOps s ops).1.draw_buffers.length = (applyFbOps s ops).1.textures.length := by
  induction ops generalizing s with
  | nil => exact hlen
  | cons op rest ih =>
    have : applyFbOps s (op :: rest) = applyFbOps (applyFbOp s op) rest := rfl
    rw [this]
    exact ih (applyFbOp s op) (applyFbOp_len_eq s op hlen)

/-- The number of `gen_textures` calls in an operation sequence. -/
def countGenTextures : List FbOp → Nat
  | [] => 0
  | FbOp.gen_textures _ :: rest => countGenTextures rest + 1
  | FbOp.gen_render_buffer :: rest => countGenTextures rest
  | FbOp.set_size _ _ :: rest => countGenTextures rest
  | FbOp.link_push _ :: rest => countGenTextures rest
  | FbOp.link_to _ :: rest => countGenTextures rest
  | FbOp.unlink :: rest => countGenTextures rest

/-- A sequence free of `gen_textures` leaves the draw-buffer list untouched
and the attachment count unchanged. -/
theorem applyFbOps_no_gen (ops : List FbOp) (s : Framebuffer × Nat)
    (hng : countGenTextures ops = 0) :
    (applyFbOps s ops).1.draw_buffers = s.1.draw_buffers ∧
    (applyFbOps s ops).1.textures.length = s.1.textures.length := by
  induction ops generalizing s with
  | nil => exact ⟨rfl, rfl⟩
  | cons op rest ih =>
    have hstep : applyFbOps s (op :: rest) = applyFbOps (applyFbOp s op) rest := rfl
    rw [hstep]
    have hrest : countGenTextures rest = 0 := by
      cases op <;> simp [countGenTextures] at hng <;> try exact hng
    rcases ih (applyFbOp s op) hrest with ⟨h1, h2⟩
    have hone : (applyFbOp s op).1.draw_buffers = s.1.draw_buffers ∧
        (applyFbOp s op).1.textures.length = s.1.textures.length := by
      cases op with
      | gen_textures n => simp [countGenTextures] at hng
      | gen_render_buffer => exact ⟨rfl, rfl⟩
      | set_size w h =>
        have hs := set_size_textures s.1 w h
        constructor
        · show ((s.1.set_size w h).1).draw_buffers = s.1.draw_buffers
          exact hs.2
        · show ((s.1.set_size w h).1).textures.length = s.1.textures.length
          rw [hs.1, resizeAll_length]
      | link_push t => exact ⟨rfl, rfl⟩
      | link_to ts =>
        have hl := link_to_textures s.1 ts
        constructor
        · show (s.1.link_to ts).draw_buffers = s.1.draw_buffers
          exact hl.2
        · show (s.1.link_to ts).textures.length = s.1.textures.length
          rw [hl.1]
      | unlink => exact ⟨rfl, rfl⟩
    exact ⟨h1.trans hone.1, h2.trans hone.2⟩

/-- A state with empty attachment and draw-buffer lists reaches a
slot-ordered state under any sequence holding at most one `gen_textures`. -/
theorem applyFbOps_slot_order (ops : List FbOp) (s : Framebuffer × Nat)
    (ht : s.1.textures = []) (hd : s.1.draw_buffers = [])
    (hcount : countGenTextures ops ≤ 1) :
    (applyFbOps s ops).1.draw_buffers =
      (List.range (applyFbOps s ops).1.textures.length).map
        (fun k => GL_COLOR_ATTACHMENT0 + k) := by
  induction ops generalizing s with
  | nil =>
    show s.1.draw_buffers = (List.range s.1.textures.length).map _
    rw [ht, hd]
    rfl
  | cons op rest ih =>
    have hstep : applyFbOps s (op :: rest) = applyFbOps (applyFbOp s op) rest := rfl
    rw [hstep]
    cases op with
    | gen_textures n =>
      have hrest0 : countGenTextures rest = 0 := by
        simp only [countGenTextures] at hcount
        omega
      rcases applyFbOps_no_gen rest (applyFbOp s (FbOp.gen_textures n)) hrest0 with ⟨h1, h2⟩
      rw [h1, h2]
      have hfb : (applyFbOp s (FbOp.gen_textures n)).1.draw_buffers =
          (List.range n).map (fun k => GL_COLOR_ATTACHMENT0 + k) := by
        simp [applyFbOp, Framebuffer.gen_textures, genTexturesLoop_eq, hd, Nat.add_zero]
      have hft : (applyFbOp s (FbOp.gen_textures n)).1.textures.length = n := by
        simp [applyFbOp, Framebuffer.gen_textures, genTexturesLoop_eq, ht]
      rw [hfb, hft]
    | gen_render_buffer =>
      exact ih (applyFbOp s FbOp.gen_render_buffer) ht hd (by simpa [countGenTextures] using hcount)
    | set_size w h =>
      have hs := set_size_textures s.1 w h
      refine ih (applyFbOp s (FbOp.set_size w h)) ?_ ?_ (by simpa [countGenTextures] using hcount)
      · show ((s.1.set_size w h).1).textures = []
        rw [hs.1, ht]
        rfl
      · show ((s.1.set_size w h).1).draw_buffers = []
        rw [hs.2, hd]
    | link_push t =>
      exact ih (applyFbOp s (FbOp.link_push t)) ht hd (by simpa [countGenTextures] using hcount)
    | link_to ts =>
      refine ih (applyFbOp s (FbOp.link_to ts)) ?_ ?_ (by simpa [countGenTextures] using hcount)
      · show (s.1.link_to ts).textures = []
        rw [(link_to_textures s.1 ts).1, ht]
      · show (s.1.link_to ts).draw_buffers = []
        rw [(link_to_textures s.1 ts).2, hd]
    | unlink =>
      exact ih (applyFbOp s FbOp.unlink) ht hd (by simpa [countGenTextures] using hcount)

/-- C7 counterexample: starting from `Framebuffer::new_default` and calling
`gen_textures 1` twice (a reachable state, since `gen_textures` is public),
the draw-buffer list and the texture list still have equal length 2, but the
draw-buffer slot at index 1 is `GL_COLOR_ATTACHMENT0`, not color-attachment
slot 1 — the loop restarts its slot index at 0 on every call. -/
theorem framebuffer_repeated_gen_textures_slot_order_fails :
    (applyFbOps (Framebuffer.new_default 1 1, 10)
        [FbOp.gen_textures 1, FbOp.gen_textures 1]).1.textures.length = 2 ∧
    (applyFbOps (Framebuffer.new_default 1 1, 10)
        [FbOp.gen_textures 1, FbOp.gen_textures 1]).1.draw_buffers.get? 1 =
      some GL_COLOR_ATTACHMENT0 ∧
    GL_COLOR_ATTACHMENT0 ≠ GL_COLOR_ATTACHMENT0 + 1 := by
  decide

/-- C7 (amended): in every reachable `Framebuffer` state (any operation
sequence applied to a freshly constructed state) the draw-buffer list and
the attachment list have the same length; and whenever the sequence calls
`gen_textures` at most once — as `Framebuffer::new` does — the k-th
draw-buffer slot is color-attachment slot k. -/
theorem framebuffer_reachable_draw_buffer_invariant (w h : Int) (freshId : Nat)
    (ops : List FbOp) :
    (applyFbOps (Framebuffer.new_default w h, freshId) ops).1.draw_buffers.length =
      (applyFbOps (Framebuffer.new_default w h, freshId) ops).1.textures.length ∧
    (countGenTextures ops ≤ 1 →
      (applyFbOps (Framebuffer.new_default w h, freshId) ops).1.draw_buffers =
        (List.range
            (applyFbOps (Framebuffer.new_default w h, freshId) ops).1.textures.length).map
          (fun k => GL_COLOR_ATTACHMENT0 + k)) := by
  constructor
  · exact applyFbOps_len_eq ops (Framebuffer.new_default w h, freshId) rfl
  · intro hcount
    exact applyFbOps_slot_order ops (Framebuffer.new_default w h, freshId) rfl rfl hcount

/-- Witness for the amended C7 at a concrete operation sequence with one
`gen_textures` call. -/
theorem framebuffer_reachable_draw_buffer_invariant_witness :
    (applyFbOps (Framebuffer.new_default 1 1, 10)
        [FbOp.gen_textures 2, FbOp.set_size 5 6]).1.draw_buffers.length =
      (applyFbOps (Framebuffer.new_default 1 1, 10)
          [FbOp.gen_textures 2, FbOp.set_size 5 6]).1.textures.length ∧
    (applyFbOps (Framebuffer.new_default 1 1, 10)
        [FbOp.gen_textures 2, FbOp.set_size 5 6]).1.draw_buffers =
      (List.range
          (applyFbOps (Framebuffer.new_default 1 1, 10)
              [FbOp.gen_textures 2, FbOp.set_size 5 6]).1.textures.length).map
        (fun k => GL_COLOR_ATTACHMENT0 + k) :=
  ⟨(framebuffer_reachable_draw_buffer_invariant 1 1 10
      [FbOp.gen_textures 2, FbOp.set_size 5 6]).1,
   (framebuffer_reachable_draw_buffer_invariant 1 1 10
      [FbOp.gen_textures 2, FbOp.set_size 5 6]).2 (by decide)⟩

/-- C9: `Framebuffer::get(index)` is total — it returns the color attachment
stored at `index` whenever `index` is within the attachment list's range,
and `none` when it is out of range. -/
theorem framebuffer_get_in_or_out_of_range (fb : Framebuffer) (index : Nat) :
    (∀ hin : index < fb.len, fb.get index = some (fb.textures.get ⟨index, hin⟩)) ∧
    (fb.len ≤ index → fb.get index = none) := by
  constructor
  · intro hin
    have h1 : fb.textures[index]? = some fb.textures[index] :=
      List.getElem?_eq_getElem hin
    simp [Framebuffer.get, h1]
  · intro hout
    have h2 : fb.textures[index]? = none := List.getElem?_eq_none hout
    simp [Framebuffer.get, h2]

/-- Witness for C9 at a concrete framebuffer with one attachment, probing an
in-range and an out-of-range index. -/
theorem framebuffer_get_in_or_out_of_range_witness :
    (newExpectedFb 4 3 1 false 10).get 0 =
      some ((newExpectedFb 4 3 1 false 10).textures.get
        ⟨0, by decide⟩) ∧
    (newExpectedFb 4 3 1 false 10).get 1 = none :=
  ⟨(framebuffer_get_in_or_out_of_range (newExpectedFb 4 3 1 false 10) 0).1 (by decide),
   (framebuffer_get_in_or_out_of_range (newExpectedFb 4 3 1 false 10) 1).2 (by decide)⟩

/-- Closed form of the `set_size` resize loop: the longest prefix of
textures whose resize succeeds is resized, the rest is left untouched, and
an error is reported exactly when some texture's resize fails. -/
theorem resizeAll_eq (ts : List Texture) (w h : Int) :
    resizeAll ts w h =
      ((ts.takeWhile (fun t => t.resize_ok)).map
          (fun t => { t with width := w, height := h }) ++
        ts.dropWhile (fun t => t.resize_ok),
       if ts.all (fun t => t.resize_ok) then none else some GlError.textureResizeFailed) := by
  induction ts with
  | nil => simp [resizeAll]
  | cons t rest ih =>
    cases hok : t.resize_ok with
    | true =>
      simp [resizeAll, Texture.resize, hok, ih, List.takeWhile_cons, List.dropWhile_cons]
    | false =>
      simp [resizeAll, Texture.resize, hok, List.takeWhile_cons, List.dropWhile_cons]

/-- C5: `set_size` updates the stored dimensions, resizes the attachments in
order up to the first failure (all of them on success, with the render
buffer also resized then), keeps the attachment count and the attachment
identity/order unchanged, succeeds exactly when every texture resize
succeeds, and propagates the texture-resize error otherwise, leaving the
already-resized prefix at the new size (no rollback). -/
theorem framebuffer_set_size_spec (fb : Framebuffer) (w h : Int) :
    ((fb.set_size w h).1).textures =
        (fb.textures.takeWhile (fun t => t.resize_ok)).map
          (fun t => { t with width := w, height := h }) ++
          fb.textures.dropWhile (fun t => t.resize_ok) ∧
    ((fb.set_size w h).1).textures.length = fb.textures.length ∧
    ((fb.set_size w h).1).textures.map Texture.get_id = fb.textures.map Texture.get_id ∧
    ((fb.set_size w h).2 = Except.ok () ↔ fb.textures.all (fun t => t.resize_ok) = true) ∧
    (fb.textures.all (fun t => t.resize_ok) = true →
      (∀ t ∈ ((fb.set_size w h).1).textures, t.width = w ∧ t.height = h) ∧
      ((fb.set_size w h).1).render_buffer =
        fb.render_buffer.map (fun r => r.resize w h)) ∧
    (fb.textures.all (fun t => t.resize_ok) = false →
      (fb.set_size w h).2 = Except.error GlError.textureResizeFailed) := by
  have hmapid : ((fb.textures.takeWhile (fun t : Texture => t.resize_ok)).map
          (fun t : Texture => { t with width := w, height := h }) ++
          fb.textures.dropWhile (fun t : Texture => t.resize_ok)).map Texture.get_id =
      fb.textures.map Texture.get_id := by
    rw [List.map_append, List.map_map]
    have hcomp : (Texture.get_id ∘ fun t : Texture => { t with width := w, height := h }) =
        Texture.get_id := rfl
    rw [hcomp, ← List.map_append, List.takeWhile_append_dropWhile]
  have hlen : ((fb.textures.takeWhile (fun t : Texture => t.resize_ok)).map
          (fun t : Texture => { t with width := w, height := h }) ++
          fb.textures.dropWhile (fun t : Texture => t.resize_ok)).length =
      fb.textures.length := by
    rw [List.length_append, List.length_map, ← List.length_append,
      List.takeWhile_append_dropWhile]
  cases hall : fb.textures.all (fun t => t.resize_ok) with
  | true =>
    have hr := resizeAll_eq fb.textures w h
    rw [hall, if_pos rfl] at hr
    refine ⟨?_, ?_, ?_, ?_, ?_, ?_⟩
    · simp [Framebuffer.set_size, hr]
    · simp only [Framebuffer.set_size, hr]
      exact hlen
    · simp only [Framebuffer.set_size, hr]
      exact hmapid
    · simp [Framebuffer.set_size, hr]
    · intro _
      constructor
      · intro t hm
        simp only [Framebuffer.set_size, hr] at hm
        rw [List.takeWhile_eq_self_iff.2 (by simpa [List.all_eq_true] using hall),
          List.dropWhile_eq_nil_iff.2 (by simpa [List.all_eq_true] using hall)] at hm
        simp only [List.append_nil, List.mem_map] at hm
        obtain ⟨t0, -, ht0⟩ := hm
        rw [← ht0]
        exact ⟨rfl, rfl⟩
      · simp [Framebuffer.set_size, hr]
    · intro hfalse
      exact absurd hfalse (by simp)
  | false =>
    have hr := resizeAll_eq fb.textures w h
    rw [hall] at hr
    simp only [if_neg Bool.false_ne_true] at hr
    refine ⟨?_, ?_, ?_, ?_, ?_, ?_⟩
    · simp [Framebuffer.set_size, hr]
    · simp only [Framebuffer.set_size, hr]
      exact hlen
    · simp only [Framebuffer.set_size, hr]
      exact hmapid
    · simp [Framebuffer.set_size, hr]
    · intro htrue
      exact absurd htrue (by simp)
    · intro _
      simp [Framebuffer.set_size, hr]

/-- Witness for C5: on a framebuffer whose two attachments all resize
successfully, `set_size 7 9` succeeds and resizes the render buffer. -/
theorem framebuffer_set_size_spec_witness :
    ((newExpectedFb 4 3 2 true 10).set_size 7 9).2 = Except.ok () ∧
    (((newExpectedFb 4 3 2 true 10).set_size 7 9).1).render_buffer =
      (newExpectedFb 4 3 2 true 10).render_buffer.map (fun r => r.resize 7 9) :=
  ⟨(framebuffer_set_size_spec (newExpectedFb 4 3 2 true 10) 7 9).2.2.2.1.2 (by rfl),
   ((framebuffer_set_size_spec (newExpectedFb 4 3 2 true 10) 7 9).2.2.2.2.1 (by rfl)).2⟩

/-- C10: when `set_size(w, h)` fails, the stored dimensions have already
been updated — `get_size` returns the new `(w, h)` — and the render buffer
(if present) is left un-resized. -/
theorem framebuffer_set_size_failure_dimensions (fb : Framebuffer) (w h : Int)
    (e : GlError) (hfail : (fb.set_size w h).2 = Except.error e) :
    ((fb.set_size w h).1).get_size = (w, h) ∧
    ((fb.set_size w h).1).render_buffer = fb.render_buffer := by
  cases hr2 : (resizeAll fb.textures w h).2 with
  | none =>
    have hok : (fb.set_size w h).2 = Except.ok () := by
      simp [Framebuffer.set_size, hr2]
    rw [hok] at hfail
    exact Except.noConfusion hfail
  | some err =>
    constructor <;> simp [Framebuffer.set_size, Framebuffer.get_size, hr2]

/-- A texture whose native resize fails. -/
def failingTexture : Texture :=
  { id := 11, width := 4, height := 3, resize_ok := false }

/-- A framebuffer holding a failing attachment and a render buffer, for the
`set_size` failure witness. -/
def failingFb : Framebuffer :=
  { id := 10,
    textures := [failingTexture],
    draw_buffers := [GL_COLOR_ATTACHMENT0],
    quad := create_quad [Mat4.mk],
    width := 4,
    height := 3,
    render_buffer := some { id := 12, width := 4, height := 3 } }

/-- Witness for C10 at a framebuffer whose only attachment fails to
resize. -/
theorem framebuffer_set_size_failure_dimensions_witness :
    ((failingFb.set_size 7 9).1).get_size = (7, 9) ∧
    ((failingFb.set_size 7 9).1).render_buffer = failingFb.render_buffer :=
  framebuffer_set_size_failure_dimensions failingFb 7 9 GlError.textureResizeFailed (by rfl)

/-- Pushing a list of textures with `link_to` appends them, in order, to the
quad's first mesh's input-texture list. -/
theorem link_to_appends (fb : Framebuffer) (ts : List Texture) (m : Mesh)
    (rest : List Mesh) (hm : fb.quad.meshes = m :: rest) :
    (fb.link_to ts).quad.meshes =
      { m with diffuse_textures := m.diffuse_textures ++ ts } :: rest := by
  induction ts generalizing fb m with
  | nil => simpa using hm
  | cons t ts ih =>
    have hstep : fb.link_to (t :: ts) = (fb.link_push t).link_to ts := rfl
    rw [hstep]
    have hpm : (fb.link_push t).quad.meshes =
        { m with diffuse_textures := m.diffuse_textures ++ [t] } :: rest := by
      simp [Framebuffer.link_push, hm]
    rw [ih (fb.link_push t) { m with diffuse_textures := m.diffuse_textures ++ [t] } hpm]
    simp

/-- C6: `B.link_to_fb(A)` appends A's output attachment textures, in A's
slot order, to the end of B's quad input-texture list, preserving every
entry already in that list. -/
theorem framebuffer_link_to_fb_appends (b a : Framebuffer) (m : Mesh)
    (rest : List Mesh) (hm : b.quad.meshes = m :: rest) :
    (b.link_to_fb a).quad.meshes =
      { m with diffuse_textures := m.diffuse_textures ++ a.get_link } :: rest :=
  link_to_appends b a.get_link m rest hm

/-- A framebuffer whose quad already holds one input texture, for the
linking witness. -/
def linkedFb : Framebuffer :=
  { id := 20,
    textures := [],
    draw_buffers := [],
    quad := { meshes := [{ count := 6, offset := 0,
                           diffuse_textures := [Texture.new_mut 1 1 99],
                           set_textures_ok := true }],
              vertex_array := { id := 0 },
              vertex_buffer := { id := 0, data := [] },
              element_buffer := { id := 0, data := [] },
              transform_buffer := { id := 0, data := [Mat4.mk] } },
    width := 1,
    height := 1,
    render_buffer := none }

/-- Witness for C6: linking a two-attachment framebuffer into `linkedFb`
appends its output textures after the pre-existing input texture. -/
theorem framebuffer_link_to_fb_appends_witness :
    (linkedFb.link_to_fb (newExpectedFb 4 3 2 true 10)).quad.meshes =
      { count := 6, offset := 0,
        diffuse_textures := [Texture.new_mut 1 1 99] ++ (newExpectedFb 4 3 2 true 10).get_link,
        set_textures_ok := true } :: [] :=
  framebuffer_link_to_fb_appends linkedFb (newExpectedFb 4 3 2 true 10)
    { count := 6, offset := 0, diffuse_textures := [Texture.new_mut 1 1 99],
      set_textures_ok := true } [] (by rfl)

/-- Equation lemma: `MultiBindModel::draw` when the per-mesh loop succeeds. -/
theorem multibind_draw_ok_eq (model : MultiBindModel) (sp : ShaderProgram)
    (tr : List GlCall)
    (hl : MultiBindModel.drawMeshLoop model.meshes sp
        (Int.ofNat model.transform_buffer.len) = (Except.ok (), tr)) :
    model.draw sp = (Except.ok (),
      GlCall.bindVertexArray model.vertex_array.id :: (tr ++ [GlCall.bindVertexArray 0])) := by
  unfold MultiBindModel.draw
  rw [hl]

/-- Equation lemma: `MultiBindModel::draw` when the per-mesh loop fails. -/
theorem multibind_draw_error_eq (model : MultiBindModel) (sp : ShaderProgram)
    (tr : List GlCall) (e : GlError)
    (hl : MultiBindModel.drawMeshLoop model.meshes sp
        (Int.ofNat model.transform_buffer.len) = (Except.error e, tr)) :
    model.draw sp = (Except.error e,
      GlCall.bindVertexArray model.vertex_array.id :: tr) := by
  unfold MultiBindModel.draw
  rw [hl]

/-- Equation lemma: `BindlessModel::draw` when the per-mesh loop succeeds. -/
theorem bindless_draw_ok_eq (model : BindlessModel) (sp : ShaderProgram)
    (tr : List GlCall)
    (hl : BindlessModel.drawMeshLoop model.meshes sp
        (Int.ofNat model.transform_buffer.len) = (Except.ok (), tr)) :
    model.draw sp = (Except.ok (),
      GlCall.bindVertexArray model.vertex_array.id ::
        GlCall.bindBuffer GL_DRAW_INDIRECT_BUFFER model.command_buffer.get_id ::
          (tr ++ [GlCall.bindVertexArray 0])) := by
  unfold BindlessModel.draw
  rw [hl]
  rfl

/-- Equation lemma: `BindlessModel::draw` when the per-mesh loop fails. -/
theorem bindless_draw_error_eq (model : BindlessModel) (sp : ShaderProgram)
    (tr : List GlCall) (e : GlError)
    (hl : BindlessModel.drawMeshLoop model.meshes sp
        (Int.ofNat model.transform_buffer.len) = (Except.error e, tr)) :
    model.draw sp = (Except.error e,
      GlCall.bindVertexArray model.vertex_array.id ::
        GlCall.bindBuffer GL_DRAW_INDIRECT_BUFFER model.command_buffer.get_id :: tr) := by
  unfold BindlessModel.draw
  rw [hl]
  rfl

/-- When the per-mesh loop of the direct-draw variant succeeds, its trace
is, per mesh in list order: the texture-binding call, exactly one instanced
indexed draw call with that mesh's count/offset, and the active-texture
reset. -/
theorem multibind_drawMeshLoop_ok (meshes : List Mesh) (sp : ShaderProgram)
    (inst : Int) (tr : List GlCall)
    (hok : MultiBindModel.drawMeshLoop meshes sp inst = (Except.ok (), tr)) :
    tr = meshes.flatMap (fun m =>
        [GlCall.setTextures (m.diffuse_textures.map Texture.get_id),
         GlCall.drawElementsOffset m.get_count m.get_offset inst,
         GlCall.activeTexture GL_TEXTURE0]) := by
  induction meshes generalizing tr with
  | nil =>
    simp only [MultiBindModel.drawMeshLoop, Prod.mk.injEq] at hok
    simp [← hok.2]
  | cons m rest ih =>
    cases hst : m.set_textures_ok with
    | false =>
      rw [MultiBindModel.drawMeshLoop] at hok
      simp [Mesh.set_textures, hst] at hok
    | true =>
      rcases hrec : MultiBindModel.drawMeshLoop rest sp inst with ⟨res2, tr2⟩
      rw [MultiBindModel.drawMeshLoop] at hok
      simp only [Mesh.set_textures, hst, hrec, if_true, Prod.mk.injEq] at hok
      obtain ⟨hres2, htr⟩ := hok
      rw [hres2] at hrec
      rw [← htr, ih tr2 hrec]
      simp [List.flatMap_cons]

/-- C2: a successful `MultiBindModel::draw` binds the vertex array, then for
each mesh in list order binds its textures, issues exactly one instanced
indexed draw call whose count and offset come from that mesh's stored
descriptor and whose instance count is the transform buffer's element
count, and resets the active texture unit to the default unit 0
(`GL_TEXTURE0`) after each mesh, finally unbinding the vertex array. -/
theorem multibind_draw_one_call_per_mesh (model : MultiBindModel)
    (sp : ShaderProgram) (hok : (model.draw sp).1 = Except.ok ()) :
    (model.draw sp).2 =
      GlCall.bindVertexArray model.vertex_array.id ::
        (model.meshes.flatMap (fun m =>
          [GlCall.setTextures (m.diffuse_textures.map Texture.get_id),
           GlCall.drawElementsOffset m.get_count m.get_offset
             (Int.ofNat model.transform_buffer.len),
           GlCall.activeTexture GL_TEXTURE0]) ++ [GlCall.bindVertexArray 0]) := by
  rcases hl : MultiBindModel.drawMeshLoop model.meshes sp
      (Int.ofNat model.transform_buffer.len) with ⟨res, tr⟩
  cases res with
  | error e =>
    rw [multibind_draw_error_eq model sp tr e hl] at hok
    exact absurd hok (by simp)
  | ok u =>
    cases u
    rw [multibind_draw_ok_eq model sp tr hl,
      multibind_drawMeshLoop_ok model.meshes sp (Int.ofNat model.transform_buffer.len) tr hl]

/-- A two-mesh direct-draw model for the draw witnesses. -/
def demoModel : MultiBindModel :=
  { meshes := [{ count := 6, offset := 0, diffuse_textures := [], set_textures_ok := true },
               { count := 9, offset := 24, diffuse_textures := [Texture.new_mut 1 1 5],
                 set_textures_ok := true }],
    vertex_array := { id := 3 },
    vertex_buffer := { id := 1, data := [] },
    element_buffer := { id := 2, data := [] },
    transform_buffer := { id := 4, data := [Mat4.mk, Mat4.mk] } }

/-- A shader program for the draw witnesses. -/
def demoProgram : ShaderProgram :=
  { id := 9, uniform_blocks := [] }

/-- Witness for C2 at the concrete two-mesh model. -/
theorem multibind_draw_one_call_per_mesh_witness :
    (demoModel.draw demoProgram).2 =
      GlCall.bindVertexArray demoModel.vertex_array.id ::
        (demoModel.meshes.flatMap (fun m =>
          [GlCall.setTextures (m.diffuse_textures.map Texture.get_id),
           GlCall.drawElementsOffset m.get_count m.get_offset
             (Int.ofNat demoModel.transform_buffer.len),
           GlCall.activeTexture GL_TEXTURE0]) ++ [GlCall.bindVertexArray 0]) :=
  multibind_draw_one_call_per_mesh demoModel demoProgram (by rfl)

/-- The two per-mesh draw loops are the same function, mirroring the
source's duplicated loop bodies. -/
theorem bindless_loop_eq_multibind_loop (meshes : List Mesh) (sp : ShaderProgram)
    (inst : Int) :
    BindlessModel.drawMeshLoop meshes sp inst =
      MultiBindModel.drawMeshLoop meshes sp inst := by
  induction meshes with
  | nil => rfl
  | cons m rest ih =>
    simp only [BindlessModel.drawMeshLoop, MultiBindModel.drawMeshLoop, ih]

/-- C8: on identically-constructed state (same meshes, vertex array and
transform buffer) the indirect-draw variant's `draw` returns the same
result as the direct-draw variant and emits the same call sequence, except
that it additionally binds the indirect-draw-command buffer right after
binding the vertex array and before any per-mesh call. -/
theorem bindless_draw_refines_multibind (bm : BindlessModel) (mm : MultiBindModel)
    (sp : ShaderProgram) (hm : bm.meshes = mm.meshes)
    (hva : bm.vertex_array = mm.vertex_array)
    (htb : bm.transform_buffer = mm.transform_buffer) :
    (bm.draw sp).1 = (mm.draw sp).1 ∧
    (bm.draw sp).2 =
      GlCall.bindVertexArray mm.vertex_array.id ::
        GlCall.bindBuffer GL_DRAW_INDIRECT_BUFFER bm.command_buffer.get_id ::
          ((mm.draw sp).2).tail := by
  rcases hl : MultiBindModel.drawMeshLoop mm.meshes sp
      (Int.ofNat mm.transform_buffer.len) with ⟨res, tr⟩
  have hlb : BindlessModel.drawMeshLoop bm.meshes sp
      (Int.ofNat bm.transform_buffer.len) = (res, tr) := by
    rw [hm, htb, bindless_loop_eq_multibind_loop]
    exact hl
  cases res with
  | ok u =>
    cases u
    rw [multibind_draw_ok_eq mm sp tr hl, bindless_draw_ok_eq bm sp tr hlb, hva]
    exact ⟨rfl, rfl⟩
  | error e =>
    rw [multibind_draw_error_eq mm sp tr e hl, bindless_draw_error_eq bm sp tr e hlb, hva]
    exact ⟨rfl, rfl⟩

/-- The indirect-draw counterpart of `demoModel`, with a command buffer. -/
def demoBindless : BindlessModel :=
  { meshes := demoModel.meshes,
    vertex_array := demoModel.vertex_array,
    vertex_buffer := demoModel.vertex_buffer,
    element_buffer := demoModel.element_buffer,
    transform_buffer := demoModel.transform_buffer,
    command_buffer := { id := 8, data := [] } }

/-- Witness for C8 at the concrete model pair. -/
theorem bindless_draw_refines_multibind_witness :
    (demoBindless.draw demoProgram).1 = (demoModel.draw demoProgram).1 ∧
    (demoBindless.draw demoProgram).2 =
      GlCall.bindVertexArray demoModel.vertex_array.id ::
        GlCall.bindBuffer GL_DRAW_INDIRECT_BUFFER demoBindless.command_buffer.get_id ::
          ((demoModel.draw demoProgram).2).tail :=
  bindless_draw_refines_multibind demoBindless demoModel demoProgram rfl rfl rfl

/-- Whether a native call allocates or configures the uniform buffer's GPU
storage (`CreateBuffers`, `NamedBufferData`, `BindBufferRange`). -/
def GlCall.isBufferAlloc : GlCall → Bool
  | GlCall.createBuffers _ => true
  | GlCall.namedBufferData _ _ => true
  | GlCall.bindBufferRange _ _ _ _ _ => true
  | _ => false

/-- The registration loop succeeds exactly when every given shader program
declares the block name. -/
theorem registerAll_ok_iff (ub : UniformBuffer) (programs : List ShaderProgram) :
    (registerAll ub programs).1 = Except.ok () ↔
      ∀ p ∈ programs, ub.name ∈ p.uniform_blocks := by
  induction programs with
  | nil => simp [registerAll]
  | cons p rest ih =>
    by_cases hp : ub.name ∈ p.uniform_blocks
    · rcases hrec : registerAll ub rest with ⟨res2, tr2⟩
      rw [registerAll]
      simp only [UniformBuffer.register_shader_program, ShaderProgram.bind_to_ubo,
        if_pos hp, hrec]
      rw [hrec] at ih
      simp only [List.mem_cons]
      constructor
      · intro hres q hq
        rcases hq with hq | hq
        · rw [hq]; exact hp
        · exact (ih.1 hres) q hq
      · intro hall
        exact ih.2 (fun q hq => hall q (Or.inr hq))
    · rw [registerAll]
      simp only [UniformBuffer.register_shader_program, ShaderProgram.bind_to_ubo,
        if_neg hp]
      simp only [List.mem_cons]
      constructor
      · intro hres
        exact absurd hres (by simp)
      · intro hall
        exact absurd (hall p (Or.inl rfl)) hp

/-- On failure the registration loop reports the shader-binding error
carrying the block name. -/
theorem registerAll_error (ub : UniformBuffer) (programs : List ShaderProgram) :
    (registerAll ub programs).1 = Except.ok () ∨
      (registerAll ub programs).1 =
        Except.error (GlError.shaderBindingFailed ub.name) := by
  induction programs with
  | nil => exact Or.inl rfl
  | cons p rest ih =>
    by_cases hp : ub.name ∈ p.uniform_blocks
    · rcases hrec : registerAll ub rest with ⟨res2, tr2⟩
      rw [registerAll]
      simp only [UniformBuffer.register_shader_program, ShaderProgram.bind_to_ubo,
        if_pos hp, hrec]
      rw [hrec] at ih
      exact ih
    · rw [registerAll]
      simp only [UniformBuffer.register_shader_program, ShaderProgram.bind_to_ubo,
        if_neg hp]
      exact Or.inr trivial

/-- The registration loop never allocates buffer storage. -/
theorem registerAll_no_alloc (ub : UniformBuffer) (programs : List ShaderProgram) :
    ∀ c ∈ (registerAll ub programs).2, c.isBufferAlloc = false := by
  induction programs with
  | nil => simp [registerAll]
  | cons p rest ih =>
    intro c hc
    by_cases hp : ub.name ∈ p.uniform_blocks
    · rcases hrec : registerAll ub rest with ⟨res2, tr2⟩
      rw [registerAll] at hc
      simp only [UniformBuffer.register_shader_program, ShaderProgram.bind_to_ubo,
        if_pos hp, hrec] at hc
      simp only [List.cons_append, List.nil_append, List.mem_cons] at hc
      rcases hc with hc | hc
      · rw [hc]; rfl
      · rw [hrec] at ih
        exact ih c hc
    · rw [registerAll] at hc
      simp only [UniformBuffer.register_shader_program, ShaderProgram.bind_to_ubo,
        if_neg hp] at hc
      exact absurd hc (List.not_mem_nil c)

/-- When every program declares the block, the registration loop emits one
block-binding call per program, in order. -/
theorem registerAll_trace (ub : UniformBuffer) (programs : List ShaderProgram)
    (hall : ∀ p ∈ programs, ub.name ∈ p.uniform_blocks) :
    (registerAll ub programs).2 =
      programs.map (fun p => GlCall.bindToUbo p.id ub.name) := by
  induction programs with
  | nil => rfl
  | cons p rest ih =>
    have hp : ub.name ∈ p.uniform_blocks := hall p (List.mem_cons_self p rest)
    rw [registerAll]
    simp only [UniformBuffer.register_shader_program, ShaderProgram.bind_to_ubo,
      if_pos hp]
    rw [ih (fun q hq => hall q (List.mem_cons_of_mem p hq))]
    simp

/-- C4: `UniformBuffer::new` resolves the named uniform block in every given
shader program; when some program does not declare the block it returns the
shader-binding error with the GPU buffer not yet allocated (no
buffer-allocation call is emitted and the fresh-id counter is untouched);
when every program declares the block it allocates a GPU buffer of the
given byte size and binds it to uniform binding point 0. -/
theorem uniform_buffer_new_spec (programs : List ShaderProgram) (name : String)
    (buffer_size : Int) (freshId : Nat) :
    ((∀ p ∈ programs, name ∈ p.uniform_blocks) →
      (UniformBuffer.new programs name buffer_size freshId).1 =
        Except.ok { id := freshId, name := name, buffer_size := buffer_size } ∧
      (UniformBuffer.new programs name buffer_size freshId).2.1 =
        programs.map (fun p => GlCall.bindToUbo p.id name) ++
          [GlCall.createBuffers freshId, GlCall.namedBufferData freshId buffer_size,
           GlCall.bindBufferRange GL_UNIFORM_BUFFER 0 freshId 0 buffer_size]) ∧
    ((∃ p ∈ programs, name ∉ p.uniform_blocks) →
      (UniformBuffer.new programs name buffer_size freshId).1 =
        Except.error (GlError.shaderBindingFailed name) ∧
      (∀ c ∈ (UniformBuffer.new programs name buffer_size freshId).2.1,
        c.isBufferAlloc = false) ∧
      (UniformBuffer.new programs name buffer_size freshId).2.2 = freshId) := by
  constructor
  · intro hall
    have hok : (registerAll { id := 0, name := name, buffer_size := buffer_size }
        programs).1 = Except.ok () :=
      (registerAll_ok_iff { id := 0, name := name, buffer_size := buffer_size }
        programs).2 hall
    rcases hreg : registerAll { id := 0, name := name, buffer_size := buffer_size }
        programs with ⟨res, tr⟩
    rw [hreg] at hok
    have hres : res = Except.ok () := hok
    subst hres
    have htr : tr = programs.map (fun p => GlCall.bindToUbo p.id name) := by
      have hh := registerAll_trace { id := 0, name := name, buffer_size := buffer_size }
        programs hall
      rw [hreg] at hh
      exact hh
    have hnew : UniformBuffer.new programs name buffer_size freshId =
        (Except.ok { id := freshId, name := name, buffer_size := buffer_size },
         tr ++ [GlCall.createBuffers freshId, GlCall.namedBufferData freshId buffer_size,
                GlCall.bindBufferRange GL_UNIFORM_BUFFER 0 freshId 0 buffer_size],
         freshId + 1) := by
      unfold UniformBuffer.new
      rw [hreg]
      rfl
    rw [hnew, htr]
    exact ⟨rfl, rfl⟩
  · intro hex
    obtain ⟨p, hpmem, hpnot⟩ := hex
    have hnok : ¬ (registerAll { id := 0, name := name, buffer_size := buffer_size }
        programs).1 = Except.ok () := by
      intro hok
      exact hpnot (((registerAll_ok_iff { id := 0, name := name, buffer_size := buffer_size }
        programs).1 hok) p hpmem)
    have herr : (registerAll { id := 0, name := name, buffer_size := buffer_size }
        programs).1 = Except.error (GlError.shaderBindingFailed name) := by
      rcases registerAll_error { id := 0, name := name, buffer_size := buffer_size }
          programs with hc | hc
      · exact absurd hc hnok
      · exact hc
    rcases hreg : registerAll { id := 0, name := name, buffer_size := buffer_size }
        programs with ⟨res, tr⟩
    rw [hreg] at herr
    have hres : res = Except.error (GlError.shaderBindingFailed name) := herr
    subst hres
    have hnew : UniformBuffer.new programs name buffer_size freshId =
        (Except.error (GlError.shaderBindingFailed name), tr, freshId) := by
      unfold UniformBuffer.new
      rw [hreg]
    refine ⟨by rw [hnew], ?_, by rw [hnew]⟩
    intro c hc
    rw [hnew] at hc
    have hna := registerAll_no_alloc { id := 0, name := name, buffer_size := buffer_size }
      programs
    rw [hreg] at hna
    exact hna c hc

/-- Witness for C4: both branches at concrete program lists — success on two
programs declaring the block, failure when the second does not. -/
theorem uniform_buffer_new_spec_witness :
    (UniformBuffer.new [{ id := 1, uniform_blocks := ["Matrices"] },
        { id := 2, uniform_blocks := ["Matrices", "Lights"] }] "Matrices" 64 7).1 =
      Except.ok { id := 7, name := "Matrices", buffer_size := 64 } ∧
    (UniformBuffer.new [{ id := 1, uniform_blocks := ["Matrices"] },
        { id := 2, uniform_blocks := [] }] "Matrices" 64 7).1 =
      Except.error (GlError.shaderBindingFailed "Matrices") :=
  ⟨((uniform_buffer_new_spec [{ id := 1, uniform_blocks := ["Matrices"] },
      { id := 2, uniform_blocks := ["Matrices", "Lights"] }] "Matrices" 64 7).1
      (by decide)).1,
   ((uniform_buffer_new_spec [{ id := 1, uniform_blocks := ["Matrices"] },
      { id := 2, uniform_blocks := [] }] "Matrices" 64 7).2
      ⟨{ id := 2, uniform_blocks := [] }, by decide, by decide⟩).1⟩
